import Mathlib

/-!
Verification development for the paper-search-system repository.

The embedding follows `src/app/api/pubmed/route.ts` (the HTTP proxy `GET`
handler) and the `PaperSearchSystem` component (term generation, relevance
scoring, PubMed search, reference expansion, the aggregation pipeline
`handleDiscussionSubmit`, and the lazy merge in `handlePaperSelect`).

Network and model calls are modelled as oracle functions passed in as
arguments: `none` stands for any request, transport or parse failure that
the corresponding `try`/`catch` or `!response.ok` branch absorbs.
JavaScript numbers that the code only ever uses as integers (relevance
scores, result budgets) are modelled as `Int`/`Nat`; the float expressions
`Math.floor(maxResults * 0.8)` and `Math.floor(maxResults * 0.2)` are
modelled as `4 * n / 5` and `n / 5` in `Nat`, which agree with the IEEE
double computation for every representable list length that can occur
(the rounding error of `n * 0.8` is far below the distance to the next
integer for all `n` up to 2 ^ 49).
-/

/-- JavaScript values occurring as lodash `orderBy` sort keys in this code
base: `undefined` (a missing `isMainPaper` field), booleans, and numbers. -/
inductive JsVal where
  | undef
  | bool (b : Bool)
  | num (n : Int)
deriving DecidableEq

/-- lodash 4.x `compareAscending`, restricted to the key values occurring
here (no `null`, symbols or `NaN`).  `undefined` compares greater than every
defined value; booleans compare by numeric coercion (`true > false`);
numbers compare by value.  Result is 1, -1 or 0. -/
def compareAscending : JsVal → JsVal → Int
  | .undef, .undef => 0
  | .undef, _ => 1
  | _, .undef => -1
  | .num a, .num b => if b < a then 1 else if a < b then -1 else 0
  | .bool a, .bool b => if a = b then 0 else if a then 1 else -1
  | .bool a, .num b =>
      let av : Int := if a then 1 else 0
      if b < av then 1 else if av < b then -1 else 0
  | .num a, .bool b =>
      let bv : Int := if b then 1 else 0
      if bv < a then 1 else if a < bv then -1 else 0

/-- Insert `x` into `l` before the first element `y` with `f x y ≤ 0`.
With a comparator that is a strict total order (lodash's `compareMultiple`
ends with an index tie-break, so it is one) this computes the unique sorted
arrangement, which is what `Array.prototype.sort` returns. -/
def insertByCmp (f : α → α → Int) (x : α) : List α → List α
  | [] => [x]
  | y :: ys => if f x y ≤ 0 then x :: y :: ys else y :: insertByCmp f x ys

/-- Comparison sort by an integer comparator; models lodash `baseSortBy`. -/
def sortByCmp (f : α → α → Int) : List α → List α
  | [] => []
  | x :: xs => insertByCmp f x (sortByCmp f xs)

/-- Whitespace recognised by both JavaScript `String.prototype.trim` and the
regex class `\s` (restricted to the ASCII range, which is all that matters
for the strings in this development). -/
def jsWhitespace (c : Char) : Bool :=
  c = ' ' || c = '\t' || c = '\n' || c = '\r' || c = '\x0b' || c = '\x0c'

/-- JavaScript `trim` on a character list. -/
def jsTrimList (cs : List Char) : List Char :=
  ((cs.dropWhile jsWhitespace).reverse.dropWhile jsWhitespace).reverse

/-- JavaScript `split('\n')`: every newline separates fields, empty fields
are kept, and the empty string yields one empty field. -/
def splitLinesList : List Char → List (List Char)
  | [] => [[]]
  | c :: cs =>
    let rest := splitLinesList cs
    if c = '\n' then [] :: rest
    else
      match rest with
      | [] => [[c]]
      | l :: ls => (c :: l) :: ls

/-- JavaScript truthiness for an optional string field: `undefined` and the
empty string both fall back to the default (`x || d`). -/
def jsOrString (o : Option String) (d : String) : String :=
  match o with
  | some s => if s = "" then d else s
  | none => d

/-- Abstract extraction default: `'No abstract available'` unless the
matched XML article carries a truthy `AbstractText` text content. -/
def jsAbstract (a : Option String) : String :=
  jsOrString a ("No abstract available")

/-- Model of `Array.isArray(authors) ? authors.map(a => a.name).join(', ') :
'Unknown authors'`. -/
def jsAuthors (a : Option (List String)) : String :=
  match a with
  | some l => String.intercalate (", ") l
  | none => "Unknown authors"

/-- Model of `paper.pubdate?.split(' ')[0] || 'Unknown year'`. -/
def jsYear (p : Option String) : String :=
  match p with
  | none => "Unknown year"
  | some s =>
    let t := String.mk (s.toList.takeWhile (fun c => c != ' '))
    if t = "" then ("Unknown year") else t

/-- Model of `paper.pubdate || 'Unknown date'`. -/
def jsPubDate (p : Option String) : String :=
  jsOrString p ("Unknown date")

/-- Model of `doi ? 'https://doi.org/' + doi : 'https://pubmed.ncbi.nlm.nih.gov/' +
id + '/'` (a present but empty DOI string is falsy). -/
def jsUrl (doi : Option String) (pmid : String) : String :=
  match doi with
  | some d => if d = "" then ("https://pubmed.ncbi.nlm.nih.gov/") ++ pmid ++ "/" else ("https://doi.org/") ++ d
  | none => "https://pubmed.ncbi.nlm.nih.gov/" ++ pmid ++ "/"

/-- The `Paper` record of the component.  Optional fields model properties
that some construction sites leave absent (`undefined`). -/
structure Paper where
  id : String
  pmid : String
  title : String
  authors : String
  journal : String
  year : String
  abstract : String
  pubDate : String
  relevanceScore : Int
  summary : String
  doi : Option String
  url : Option String
  references : Option (List String)
  citations : Option (List String)
  isMainPaper : Option Bool
deriving DecidableEq

/-- The `SearchConfig` record of the component. -/
structure SearchConfig where
  maxResults : Nat
  includeReferences : Bool
  includeCitations : Bool
deriving DecidableEq

/-- The component's initial configuration (`DEFAULT_MAX_RESULTS = 20`,
both expansion flags on). -/
def defaultSearchConfig : SearchConfig :=
  { maxResults := 20, includeReferences := true, includeCitations := true }

/-- Parsed shape of the scorer's model reply:
`{ relevanceScore: <number>, summary: <string> }`. -/
structure AnalysisResult where
  relevanceScore : Int
  summary : String
deriving DecidableEq

/-- The fixed fallback returned by `analyzePaperRelevance` when the
completion request or the JSON parse fails. -/
def fallbackAnalysis : AnalysisResult :=
  { relevanceScore := 5
    summary := "1. Error analyzing paper\n2. Please try again later\n3. Service temporarily unavailable" }

/-- Model of `analyzePaperRelevance`: the argument is the outcome of the completion
request plus `JSON.parse` (`none` covers a failed request, a non-ok status
and a parse error, all absorbed by the `catch`).  A parsed reply is passed
through without any validation or clamping. -/
def analyzePaperRelevance (parsedReply : Option AnalysisResult) : AnalysisResult :=
  match parsedReply with
  | some r => r
  | none => fallbackAnalysis

/-- Model of `generateSearchTerms`: on success the reply text is trimmed, split on
newlines, and empty lines are discarded; on any failure the raw discussion
text is returned as the single term. -/
def generateSearchTerms (text : String) (reply : Option String) : List String :=
  match reply with
  | none => [text]
  | some r =>
    ((splitLinesList (jsTrimList r.toList)).map String.mk).filter (fun t => t.length > 0)

/-- Try to match the regex `PMID:\s*(\d+)` (case-insensitive) at the head
of the character list; returns the captured digit run. -/
def matchPMIDAt : List Char → Option (List Char)
  | p :: m :: i :: d :: colon :: rest =>
    if p.toLower = 'p' && m.toLower = 'm' && i.toLower = 'i' && d.toLower = 'd' && colon = ':' then
      let digits := (rest.dropWhile jsWhitespace).takeWhile Char.isDigit
      if digits.isEmpty then none else some digits
    else none
  | _ => none

/-- Scan left to right for the first match of `PMID:\s*(\d+)`. -/
def scanPMID : List Char → Option (List Char)
  | [] => none
  | c :: cs =>
    match matchPMIDAt (c :: cs) with
    | some d => some d
    | none => scanPMID cs

/-- Model of `extractPMIDFromAbstract`: first match of `/PMID:\s*(\d+)/i`, else
`null`. -/
def extractPMIDFromAbstract (text : String) : Option String :=
  (scanPMID text.toList).map String.mk

/-- One per-identifier record of an `esummary` reply (`version=2.0`):
the fields the component reads. -/
structure SummaryEntryRec where
  uid : String
  title : Option String
  authors : Option (List String)
  source : Option String
  pubdate : Option String
deriving DecidableEq

/-- One `PubmedArticle` element of the `efetch` XML, reduced to the data
the component extracts: the `PMID` text, the first `Abstract AbstractText`
text, the DOI `ArticleId`, and the reference identifiers collected by
`extractReferences`. -/
structure XmlArticle where
  pmid : Option String
  abstractText : Option String
  doi : Option String
  references : List String
deriving DecidableEq

/-- A parsed reply of the proxy's `summary` endpoint: the `summary.result`
object as an association list in key order (`none` when the field is
absent), and the parsed articles of the `full` XML payload. -/
structure SummaryPayload where
  result : Option (List (String × SummaryEntryRec))
  articles : List XmlArticle
deriving DecidableEq

/-- A `linksetdb` entry of an `elink` reply. -/
structure LinkSetDb where
  linkname : Option String
  links : Option (List String)
deriving DecidableEq

/-- A `linkset` entry of an `elink` reply. -/
structure LinkSetRec where
  linksetdbs : Option (List LinkSetDb)
deriving DecidableEq

/-- A parsed `references` reply (`elink`). -/
structure ReferenceData where
  linksets : Option (List LinkSetRec)
deriving DecidableEq

/-- Model of `extractReferenceIds`: first linkset, then the `pubmed_pubmed_refs`
linksetdb, then its `links` (already normalised to id strings); every
missing level yields `[]`. -/
def extractReferenceIds (d : ReferenceData) : List String :=
  match d.linksets with
  | some (ls :: _) =>
    match ls.linksetdbs with
    | some dbs =>
      if dbs.isEmpty then []
      else
        match dbs.find? (fun db => db.linkname == some ("pubmed_pubmed_refs")) with
        | some db => db.links.getD []
        | none => []
    | none => []
  | _ => []

/-- Oracle bundle for everything the pipeline fetches: the Perplexity
PMID resolution, the subject-paper summary fetch, the reference-graph
fetch, the per-reference summary fetches, the term-generation reply, the
keyword-search id lists, the batched summary fetches, and the relevance
scorer replies (paper content, discussion text).  `none` models the
failure the corresponding `catch`/`!ok` branch handles. -/
structure PubMedEnv where
  perplexityPMID : Option String
  subjectFetch : String → Option SummaryPayload
  referencesFetch : String → ReferenceData
  refFetch : String → Option SummaryPayload
  termReply : Option String
  esearch : String → Nat → Option (List String)
  esummaryBatch : List String → Option SummaryPayload
  scorer : String → String → Option AnalysisResult

/-- Build one keyword-search result inside `searchPubMed`: metadata from
the esummary record, abstract/DOI/references from the matching XML
article, and score plus summary from `analyzePaperRelevance` applied to
`Title: ...\nAbstract: ...`. -/
def buildSearchPaper (scorer : String → Option AnalysisResult)
    (articles : List XmlArticle) (e : SummaryEntryRec) : Paper :=
  let articleId := e.uid
  let matched := articles.find? (fun a => a.pmid == some articleId)
  let title := jsOrString e.title ("No title available")
  let abstractText := jsAbstract (matched.bind XmlArticle.abstractText)
  let doi := matched.bind XmlArticle.doi
  let refs := (matched.map XmlArticle.references).getD []
  let analysis := analyzePaperRelevance (scorer ("Title: " ++ title ++ "\nAbstract: " ++ abstractText))
  { id := articleId, pmid := articleId, title := title
    authors := jsAuthors e.authors
    journal := jsOrString e.source ("Unknown journal")
    year := jsYear e.pubdate
    abstract := abstractText
    pubDate := jsPubDate e.pubdate
    relevanceScore := analysis.relevanceScore
    summary := analysis.summary
    doi := doi, url := some (jsUrl doi articleId)
    references := some refs, citations := none, isMainPaper := none }

/-- The batch loop of `searchPubMed`: each batch issues one summary fetch;
a failed fetch throws, which aborts the whole search (`none`), discarding
the papers of earlier batches; an absent `summary.result` object is
tolerated (`Object.entries(summaryResult || {})`) and yields no papers. -/
def searchBatches (env : PubMedEnv) (disc : String) : List (List String) → Option (List Paper)
  | [] => some []
  | b :: bs =>
    match env.esummaryBatch b with
    | none => none
    | some payload =>
      let entries := (payload.result.getD []).filter (fun e => e.1 != "uids")
      let batchPapers := entries.map (fun e =>
        buildSearchPaper (fun c => env.scorer c disc) payload.articles e.2)
      (searchBatches env disc bs).map (fun rest => batchPapers ++ rest)

/-- Chunk a list into consecutive batches of size `n`, with `fuel`
bounding the recursion depth (the callers pass the list length). -/
def chunkListAux (n : Nat) : Nat → List α → List (List α)
  | 0, _ => []
  | _, [] => []
  | fuel + 1, x :: xs => (x :: xs).take n :: chunkListAux n fuel ((x :: xs).drop n)

/-- Batch splitting as done by the component's `for` loops stepping by the
batch size. -/
def chunkList (n : Nat) (l : List α) : List (List α) :=
  chunkListAux n l.length l

/-- Model of `searchPubMed`: esearch for ids (a failed search returns `[]` via the
`catch`), then process summary batches of 5; any batch failure aborts to
`[]`. -/
def searchPubMed (env : PubMedEnv) (disc term : String) (maxResults : Nat) : List Paper :=
  match env.esearch term maxResults with
  | none => []
  | some ids =>
    if ids.isEmpty then []
    else (searchBatches env disc (chunkList 5 ids)).getD []

/-- The fixed summary given to papers produced by reference expansion. -/
def referencedSummary : String :=
  "1. Referenced in the main paper\n2. Provides important background research\n3. Essential for understanding the research context"

/-- Per-identifier body of `findReferencedPapers`: fetch the summary,
validate the reply shape, locate the first `PubmedArticle`, read its
`PMID`, look the record up in `summary.result`, and build a paper with the
fixed relevance score 8; every failed step skips this identifier. -/
def processSingleReference (refFetch : String → Option SummaryPayload) (id : String) : Option Paper :=
  match refFetch id with
  | none => none
  | some d =>
    match d.result with
    | none => none
    | some entries =>
      match d.articles.head? with
      | none => none
      | some article =>
        match article.pmid with
        | none => none
        | some pmid =>
          if pmid = "" then none
          else
            match entries.find? (fun e => e.1 == pmid) with
            | none => none
            | some entry =>
              let doi := article.doi
              some { id := pmid, pmid := pmid
                     title := jsOrString entry.2.title ("No title available")
                     authors := jsAuthors entry.2.authors
                     journal := jsOrString entry.2.source ("Unknown journal")
                     year := jsYear entry.2.pubdate
                     abstract := jsAbstract article.abstractText
                     pubDate := jsPubDate entry.2.pubdate
                     relevanceScore := 8
                     summary := referencedSummary
                     doi := doi, url := some (jsUrl doi pmid)
                     references := none, citations := none, isMainPaper := none }

/-- Model of `findReferencedPapers`: truncate to `maxResults` identifiers, walk
them in batches of 10, skip every identifier whose fetch or validation
fails, and return the accumulated successes. -/
def findReferencedPapers (refFetch : String → Option SummaryPayload)
    (referenceIds : List String) (maxResults : Nat) : List Paper :=
  if referenceIds.isEmpty then []
  else
    let idsToProcess := referenceIds.take maxResults
    ((chunkList 10 idsToProcess).map (fun b => b.filterMap (processSingleReference refFetch))).flatten

/-- The sentinel paper returned by `processPaperData` on any failure. -/
def errorLoadingPaper : Paper :=
  { id := "unknown", pmid := "unknown", title := "Error loading paper"
    authors := "Unknown", journal := "Unknown", year := "Unknown"
    abstract := "An error occurred while loading this paper."
    pubDate := "Unknown", relevanceScore := 5
    summary := "1. Error occurred while loading paper\n2. Try again later\n3. Check PMID format and try searching again"
    doi := none, url := none, references := none, citations := none, isMainPaper := none }

/-- The fixed summary given to the directly searched subject paper. -/
def mainPaperSummary : String :=
  "1. This paper was directly searched by PMID\n2. Full content and references are available\n3. Central paper for the research topic"

/-- Model of `processPaperData`: find the first key of `summary.result` other than
`uids`; a missing result object or absent key throws into the `catch`,
which returns the sentinel; otherwise build the subject paper with the
fixed relevance score 10. -/
def processPaperData (paperData : SummaryPayload) : Paper :=
  match paperData.result with
  | none => errorLoadingPaper
  | some entries =>
    match entries.find? (fun e => e.1 != "uids") with
    | none => errorLoadingPaper
    | some entry =>
      let pmid := entry.1
      let matched := paperData.articles.find? (fun a => a.pmid == some pmid)
      let doi := matched.bind XmlArticle.doi
      { id := pmid, pmid := pmid
        title := jsOrString entry.2.title ("No title available")
        authors := jsAuthors entry.2.authors
        journal := jsOrString entry.2.source ("Unknown journal")
        year := jsYear entry.2.pubdate
        abstract := jsAbstract (matched.bind XmlArticle.abstractText)
        pubDate := jsPubDate entry.2.pubdate
        relevanceScore := 10
        summary := mainPaperSummary
        doi := doi, url := some (jsUrl doi pmid)
        references := some ((matched.map XmlArticle.references).getD [])
        citations := none, isMainPaper := none }

/-- Step 1 of `handleDiscussionSubmit`: the literal `PMID:` pattern in the
discussion text, else the Perplexity lookup. -/
def resolvePMID (env : PubMedEnv) (text : String) : Option String :=
  match extractPMIDFromAbstract text with
  | some p => some p
  | none => env.perplexityPMID

/-- Step 2 of `handleDiscussionSubmit` (`allResults`): when a PMID was
resolved and its summary fetch is ok, the subject paper (tagged
`isMainPaper: true`) followed by the expanded references, capped at
`Math.floor(maxResults * 0.8)`. -/
def directResults (env : PubMedEnv) (cfg : SearchConfig) (text : String) : List Paper :=
  match resolvePMID env text with
  | none => []
  | some p =>
    match env.subjectFetch p with
    | none => []
    | some paperData =>
      let refIds := extractReferenceIds (env.referencesFetch p)
      { processPaperData paperData with isMainPaper := some true } ::
        (if refIds.isEmpty then []
         else findReferencedPapers env.refFetch refIds (4 * cfg.maxResults / 5))

/-- The reference identifiers whose summaries step 2 actually requests
(the truncation performed inside `findReferencedPapers`). -/
def pipelineRefRequests (env : PubMedEnv) (cfg : SearchConfig) (text : String) : List String :=
  match resolvePMID env text with
  | none => []
  | some p =>
    match env.subjectFetch p with
    | none => []
    | some _ =>
      let refIds := extractReferenceIds (env.referencesFetch p)
      if refIds.isEmpty then [] else refIds.take (4 * cfg.maxResults / 5)

/-- Step 3: the top 5 generated search terms (`terms.slice(0, 5)`). -/
def keywordTermsUsed (env : PubMedEnv) (text : String) : List String :=
  (generateSearchTerms text env.termReply).take 5

/-- Model of `Math.ceil(a / b)` for the natural numbers occurring here (`b = 0`
never reaches a consumer: the per-term loop is then empty). -/
def jsCeilDiv (a b : Nat) : Nat :=
  (a + b - 1) / b

/-- Step 3's per-term request size:
`max(1, ceil(max(2, maxResults - allResults.length) / termCount))`. -/
def resultsPerKeyword (env : PubMedEnv) (cfg : SearchConfig) (text : String) : Nat :=
  max 1 (jsCeilDiv (max 2 (cfg.maxResults - (directResults env cfg text).length))
    (keywordTermsUsed env text).length)

/-- The keyword-search requests step 3 issues: one per used term, each
with the shared `resultsPerKeyword` cap. -/
def keywordRequests (env : PubMedEnv) (cfg : SearchConfig) (text : String) : List (String × Nat) :=
  (keywordTermsUsed env text).map (fun t => (t, resultsPerKeyword env cfg text))

/-- Step 3's accumulated keyword-search results (`allKeywordResults`). -/
def allKeywordResults (env : PubMedEnv) (cfg : SearchConfig) (text : String) : List Paper :=
  ((keywordTermsUsed env text).map
    (fun t => searchPubMed env text t (resultsPerKeyword env cfg text))).flatten

/-- The `isMainPaper` sort key as a JavaScript value (`undefined` when the
field was never set). -/
def mainKey (p : Paper) : JsVal :=
  match p.isMainPaper with
  | none => .undef
  | some b => .bool b

/-- The `relevanceScore` sort key. -/
def scoreKey (p : Paper) : JsVal :=
  .num p.relevanceScore

/-- lodash `compareMultiple` for `orderBy(_, ['isMainPaper',
'relevanceScore'], ['desc', 'desc'])`: each ascending comparison is
negated for `'desc'`, and full ties fall back to the original index. -/
def cmpMainScoreDesc (a b : Nat × Paper) : Int :=
  let c1 := compareAscending (mainKey a.2) (mainKey b.2)
  if c1 = 0 then
    let c2 := compareAscending (scoreKey a.2) (scoreKey b.2)
    if c2 = 0 then (a.1 : Int) - (b.1 : Int) else -c2
  else -c1

/-- lodash `compareMultiple` for `orderBy(_, ['relevanceScore'],
['desc'])`. -/
def cmpScoreDesc (a b : Nat × Paper) : Int :=
  let c := compareAscending (scoreKey a.2) (scoreKey b.2)
  if c = 0 then (a.1 : Int) - (b.1 : Int) else -c

/-- lodash `orderBy`: pair each element with its index, sort by the
comparator (a strict total order thanks to the index tie-break), and strip
the indices. -/
def lodashOrderBy (cmp : Nat × Paper → Nat × Paper → Int) (l : List Paper) : List Paper :=
  (sortByCmp cmp l.enum).map Prod.snd

/-- Step 4's selection loop: walk the score-sorted keyword results,
skip papers whose pmid is already in the direct/reference set, and stop
right after the `maxAdditional`-th kept paper.  The growing kept list is
not consulted, only `existingPmids`. -/
def selectUniqueTop (existingPmids : List String) (maxAdditional : Nat) :
    Nat → List Paper → List Paper
  | _, [] => []
  | count, p :: ps =>
    if existingPmids.contains p.pmid then selectUniqueTop existingPmids maxAdditional count ps
    else if maxAdditional ≤ count + 1 then [p]
    else p :: selectUniqueTop existingPmids maxAdditional (count + 1) ps

/-- Step 4 (`uniqueTopResults`): keyword results sorted by score
descending, filtered against the direct/reference pmids, capped at
`max(2, Math.floor(maxResults * 0.2))`. -/
def uniqueTopResults (env : PubMedEnv) (cfg : SearchConfig) (text : String) : List Paper :=
  selectUniqueTop ((directResults env cfg text).map Paper.pmid) (max 2 (cfg.maxResults / 5)) 0
    (lodashOrderBy cmpScoreDesc (allKeywordResults env cfg text))

/-- Step 5: `handleDiscussionSubmit`'s final list: direct results plus
unique keyword additions, ordered by
`orderBy(_, ['isMainPaper', 'relevanceScore'], ['desc', 'desc'])`. -/
def handleDiscussionSubmit (env : PubMedEnv) (cfg : SearchConfig) (text : String) : List Paper :=
  lodashOrderBy cmpMainScoreDesc
    (directResults env cfg text ++ uniqueTopResults env cfg text)

/-- The merge loop used in `handlePaperSelect`: append each incoming paper
unless an element with its id is already present in the list built so
far. -/
def mergeNewPapers (papers : List Paper) : List Paper → List Paper
  | [] => papers
  | q :: qs =>
    if papers.any (fun p => p.id == q.id) then mergeNewPapers papers qs
    else mergeNewPapers (papers ++ [q]) qs

/-- Model of `handlePaperSelect`'s effect on the in-memory paper list.  Both merge
blocks start from the `papers` value captured when the handler ran, so
when the reference branch fires its result (original papers plus new
referenced papers) is the final state; otherwise the citation merge (if
any) is. -/
def handlePaperSelect (cfg : SearchConfig) (refFetch : String → Option SummaryPayload)
    (papers : List Paper) (selected : Paper) (citingPapers : List Paper) : List Paper :=
  if (cfg.includeReferences || cfg.includeCitations) && selected.citations.isNone then
    let afterCitations :=
      if cfg.includeCitations then mergeNewPapers papers citingPapers else papers
    let hasRefs :=
      match selected.references with
      | some l => !l.isEmpty
      | none => false
    if cfg.includeReferences && hasRefs then
      mergeNewPapers papers (findReferencedPapers refFetch (selected.references.getD []) 100)
    else afterCitations
  else papers

/-- Outcome of one upstream NCBI request as the proxy sees it: a parsed
JSON (or text) reply, whose body may carry an `error` field, or a thrown
transport/parse failure. -/
inductive UpstreamOutcome where
  | reply (hasError : Bool) (payload : String)
  | netFail
deriving DecidableEq

/-- The proxy's possible responses: a payload passed through unchanged,
the combined `{summary, full}` object, the 400 for an unknown type, and
the wrapped 500 produced by the `catch`. -/
inductive ProxyResponse where
  | ok (payload : String)
  | combined (summaryPayload fullText : String)
  | invalidType
  | serverError
deriving DecidableEq

/-- The retry performed after an error-payload reply: one more fetch whose
result is returned unchanged, without inspecting it again; a thrown retry
lands in the `catch`. -/
def retryOnce : List UpstreamOutcome → ProxyResponse × Nat
  | [] => (.serverError, 2)
  | .netFail :: _ => (.serverError, 2)
  | .reply _ p2 :: _ => (.ok p2, 2)

/-- The proxy `GET` handler of `app/api/pubmed/route.ts`, as a function of
the (already defaulted) `type` parameter and the sequence of upstream
outcomes, returning the response and the number of upstream requests
made.  `search`, `citations` and `references` issue one request and retry
once only when its JSON body carries an `error` field; `summary` issues
the esummary request (same retry rule) and then the efetch request, which
is never checked or retried. -/
def pubmedGET (reqType : String) (upstream : List UpstreamOutcome) : ProxyResponse × Nat :=
  if reqType = "search" || reqType = "citations" || reqType = "references" then
    match upstream with
    | [] => (.serverError, 1)
    | .netFail :: _ => (.serverError, 1)
    | .reply false p :: _ => (.ok p, 1)
    | .reply true _ :: rest => retryOnce rest
  else if reqType = "summary" then
    match upstream with
    | [] => (.serverError, 1)
    | .netFail :: _ => (.serverError, 1)
    | .reply true _ :: rest => retryOnce rest
    | .reply false p :: rest =>
      match rest with
      | [] => (.serverError, 2)
      | .netFail :: _ => (.serverError, 2)
      | .reply _ full :: _ => (.combined p full, 2)
  else (.invalidType, 0)

/-- An `elink` reply with no linkset data at all. -/
def emptyRefData : ReferenceData := { linksets := none }

/-- A minimal esummary record with the given uid and title and nothing
else. -/
def bareEntry (uid : String) (title : String) : SummaryEntryRec :=
  { uid := uid, title := some title, authors := none, source := none, pubdate := none }

/-- Environment for exercising the keyword branch: no subject paper, two
generated terms, and both keyword searches returning the same PubMed id
`111`, scored 7. -/
def envKeywordDup : PubMedEnv :=
  { perplexityPMID := none
    subjectFetch := fun _ => none
    referencesFetch := fun _ => emptyRefData
    refFetch := fun _ => none
    termReply := some ("alpha\nbeta")
    esearch := fun _ _ => some ["111"]
    esummaryBatch := fun _ => some { result := some [("111", bareEntry ("111") "T")], articles := [] }
    scorer := fun _ _ => some { relevanceScore := 7, summary := "s" } }

/-- The keyword paper produced from id `111` under `envKeywordDup`. -/
def keywordPaper111 : Paper :=
  { id := "111", pmid := "111", title := "T"
    authors := "Unknown authors", journal := "Unknown journal"
    year := "Unknown year", abstract := "No abstract available"
    pubDate := "Unknown date", relevanceScore := 7, summary := "s"
    doi := none, url := some ("https://pubmed.ncbi.nlm.nih.gov/111/")
    references := some [], citations := none, isMainPaper := none }

/-- The score and summary of every paper built inside a keyword search
either come from a scorer reply verbatim or are the fixed fallback. -/
def scoreFromScorer (scorer : String → String → Option AnalysisResult) (disc : String)
    (p : Paper) : Prop :=
  (p.relevanceScore = 5 ∧ p.summary = fallbackAnalysis.summary) ∨
    ∃ c r, scorer c disc = some r ∧ p.relevanceScore = r.relevanceScore ∧ p.summary = r.summary

/-- The esummary payload used to demonstrate reference expansion: one
record and one article for PubMed id `99999999`. -/
def refPayload99 : SummaryPayload :=
  { result := some [("99999999", bareEntry ("99999999") "R")]
    articles := [{ pmid := some ("99999999"), abstractText := none, doi := none, references := [] }] }

/-- A reference-fetch oracle that succeeds only for id `99999999`. -/
def refFetchDemo : String → Option SummaryPayload :=
  fun id => if id = "99999999" then some refPayload99 else none

/-- The reference paper produced from `refPayload99`. -/
def refPaper99 : Paper :=
  { id := "99999999", pmid := "99999999", title := "R"
    authors := "Unknown authors", journal := "Unknown journal"
    year := "Unknown year", abstract := "No abstract available"
    pubDate := "Unknown date", relevanceScore := 8, summary := referencedSummary
    doi := none, url := some ("https://pubmed.ncbi.nlm.nih.gov/99999999/")
    references := none, citations := none, isMainPaper := none }

/-- Variant of `envKeywordDup` with a scorer that always fails and a single term. -/
def envScorerFail : PubMedEnv :=
  { envKeywordDup with scorer := fun _ _ => none, termReply := some ("alpha") }

/-- The keyword paper for id `111` when the scorer fails. -/
def keywordPaper111Fallback : Paper :=
  { keywordPaper111 with relevanceScore := 5, summary := fallbackAnalysis.summary }

/-- Variant of `envKeywordDup` with a scorer replying with the out-of-range score 11
and a single term. -/
def envScore11 : PubMedEnv :=
  { envKeywordDup with
    termReply := some ("alpha")
    scorer := fun _ _ => some { relevanceScore := 11, summary := "s" } }

/-- An esummary payload for the subject paper `12345678`. -/
def subjectPayload : SummaryPayload :=
  { result := some [("12345678", bareEntry ("12345678") "Main")], articles := [] }

/-- An elink reply whose `pubmed_pubmed_refs` linkset carries the single
reference id `99999999`. -/
def refLinkData : ReferenceData :=
  { linksets := some
      [{ linksetdbs := some
          [{ linkname := some ("pubmed_pubmed_refs"), links := some ["99999999"] }] }] }

/-- Environment for the subject-paper branch: the discussion names PMID
`12345678`, whose fetch succeeds, with one expandable reference and no
usable keyword terms. -/
def envSubjectWithRef : PubMedEnv :=
  { perplexityPMID := none
    subjectFetch := fun p => if p = "12345678" then some subjectPayload else none
    referencesFetch := fun _ => refLinkData
    refFetch := refFetchDemo
    termReply := some ("")
    esearch := fun _ _ => none
    esummaryBatch := fun _ => none
    scorer := fun _ _ => none }

/-- An esummary payload with no `summary.result` object at all. -/
def malformedPayload : SummaryPayload :=
  { result := none, articles := [] }

/-- Variant of `envSubjectWithRef` whose subject fetch replies with data that
`processPaperData` cannot parse, and no references. -/
def envMalformedSubject : PubMedEnv :=
  { envSubjectWithRef with
    subjectFetch := fun p => if p = "12345678" then some malformedPayload else none
    referencesFetch := fun _ => emptyRefData }

/-- A completion reply with thirteen nonempty lines. -/
def thirteenLineReply : String :=
  "t1\nt2\nt3\nt4\nt5\nt6\nt7\nt8\nt9\nt10\nt11\nt12\nt13"

/-- Subject-paper summary data that `processPaperData` fails on: no
`summary.result` object, or no key other than `uids`. -/
def subjectDataMalformed (d : SummaryPayload) : Prop :=
  d.result = none ∨ ∀ e ∈ d.result.getD [], e.1 = "uids"

/-- Inserting by a comparator permutes the element into the list. -/
theorem insertByCmp_perm (f : α → α → Int) (x : α) (l : List α) :
    (insertByCmp f x l).Perm (x :: l) := by
  induction l with
  | nil => exact List.Perm.refl _
  | cons y ys ih =>
    by_cases h : f x y ≤ 0
    · simp [insertByCmp, h]
    · simp only [insertByCmp, if_neg h]
      exact (ih.cons y).trans (List.Perm.swap x y ys)

/-- The comparator sort is a permutation of its input. -/
theorem sortByCmp_perm (f : α → α → Int) (l : List α) :
    (sortByCmp f l).Perm l := by
  induction l with
  | nil => exact List.Perm.refl _
  | cons x xs ih => exact (insertByCmp_perm f x (sortByCmp f xs)).trans (ih.cons x)

/-- Dropping the indices of `enumFrom` recovers the list. -/
theorem enumFrom_map_snd (n : Nat) (l : List α) :
    (List.enumFrom n l).map Prod.snd = l := by
  induction l generalizing n with
  | nil => rfl
  | cons x xs ih => simp [List.enumFrom, ih]

/-- Function `lodashOrderBy` is a permutation of its input. -/
theorem lodashOrderBy_perm (cmp : Nat × Paper → Nat × Paper → Int) (l : List Paper) :
    (lodashOrderBy cmp l).Perm l := by
  have h := (sortByCmp_perm cmp l.enum).map Prod.snd
  rw [List.enum, enumFrom_map_snd] at h
  exact h

/-- Membership is invariant under `lodashOrderBy`. -/
theorem mem_lodashOrderBy (cmp : Nat × Paper → Nat × Paper → Int) (l : List Paper) (p : Paper) :
    p ∈ lodashOrderBy cmp l ↔ p ∈ l :=
  (lodashOrderBy_perm cmp l).mem_iff

/-- Flattening the batches reassembles the original list (as long as the
batch size is positive and the fuel covers the length). -/
theorem chunkListAux_flatten (n : Nat) (hn : 0 < n) :
    ∀ (fuel : Nat) (l : List α), l.length ≤ fuel → (chunkListAux n fuel l).flatten = l := by
  intro fuel
  induction fuel with
  | zero =>
    intro l hl
    have : l = [] := List.eq_nil_of_length_eq_zero (Nat.le_zero.mp hl)
    subst this
    rfl
  | succ k ih =>
    intro l hl
    match l with
    | [] => rfl
    | x :: xs =>
      simp only [chunkListAux, List.flatten_cons]
      rw [ih ((x :: xs).drop n) ?_, List.take_append_drop]
      have hdrop : ((x :: xs).drop n).length = (x :: xs).length - n := List.length_drop n _
      simp only [List.length_cons] at hl hdrop ⊢
      omega

/-- Batch splitting preserves the flattened list. -/
theorem chunkList_flatten (n : Nat) (hn : 0 < n) (l : List α) :
    (chunkList n l).flatten = l :=
  chunkListAux_flatten n hn l.length l (Nat.le_refl _)

/-- Per-batch `filterMap` composes to a `filterMap` over the flattened
list. -/
theorem flatten_map_filterMap (g : α → Option β) (ls : List (List α)) :
    ((ls.map (fun b => b.filterMap g)).flatten) = ls.flatten.filterMap g := by
  induction ls with
  | nil => rfl
  | cons b bs ih =>
    simp only [List.map_cons, List.flatten_cons, List.filterMap_append, ih]

/-- The batched, per-identifier skip loop of `findReferencedPapers` is a
`filterMap` over the truncated identifier list: each identifier
contributes its own success or is skipped, independently of the others. -/
theorem findReferencedPapers_eq_filterMap (refFetch : String → Option SummaryPayload)
    (ids : List String) (m : Nat) :
    findReferencedPapers refFetch ids m = (ids.take m).filterMap (processSingleReference refFetch) := by
  unfold findReferencedPapers
  by_cases h : ids.isEmpty
  · rw [if_pos h]
    rw [List.isEmpty_iff] at h
    subst h
    simp
  · rw [if_neg h, flatten_map_filterMap, chunkList, chunkListAux_flatten 10 (by omega)]
    exact Nat.le_refl _

/-- Everything the selection loop keeps comes from the scanned list and
has a pmid outside the existing set. -/
theorem selectUniqueTop_mem (ex : List String) (m : Nat) :
    ∀ (c : Nat) (l : List Paper) (p : Paper), p ∈ selectUniqueTop ex m c l →
      p ∈ l ∧ ex.contains p.pmid = false := by
  intro c l
  induction l generalizing c with
  | nil => intro p hp; cases hp
  | cons q qs ih =>
    intro p hp
    simp only [selectUniqueTop] at hp
    by_cases hq : ex.contains q.pmid
    · rw [if_pos hq] at hp
      obtain ⟨h1, h2⟩ := ih c p hp
      exact ⟨List.mem_cons_of_mem q h1, h2⟩
    · rw [if_neg hq] at hp
      by_cases hm : m ≤ c + 1
      · rw [if_pos hm] at hp
        have hp := List.mem_singleton.mp hp
        subst hp
        exact ⟨List.mem_cons_self _ _, Bool.eq_false_iff.mpr hq⟩
      · rw [if_neg hm] at hp
        rcases List.mem_cons.mp hp with hp | hp
        · subst hp
          exact ⟨List.mem_cons_self _ _, Bool.eq_false_iff.mpr hq⟩
        · obtain ⟨h1, h2⟩ := ih (c + 1) p hp
          exact ⟨List.mem_cons_of_mem q h1, h2⟩

/-- The selection loop keeps at most `m - c` papers once `c` are already
counted. -/
theorem selectUniqueTop_length (ex : List String) (m : Nat) :
    ∀ (c : Nat) (l : List Paper), c < m → (selectUniqueTop ex m c l).length ≤ m - c := by
  intro c l
  induction l generalizing c with
  | nil => intro _; simp [selectUniqueTop]
  | cons q qs ih =>
    intro hc
    simp only [selectUniqueTop]
    by_cases hq : ex.contains q.pmid
    · rw [if_pos hq]
      exact ih c hc
    · rw [if_neg hq]
      by_cases hm : m ≤ c + 1
      · rw [if_pos hm]
        simp only [List.length_cons, List.length_nil]
        omega
      · rw [if_neg hm]
        have := ih (c + 1) (by omega)
        simp only [List.length_cons]
        omega

/-- A paper built by `processSingleReference` always carries the fixed
reference score 8 and summary, and no `isMainPaper` flag. -/
theorem processSingleReference_fields (refFetch : String → Option SummaryPayload)
    (id : String) (p : Paper) (h : processSingleReference refFetch id = some p) :
    p.relevanceScore = 8 ∧ p.summary = referencedSummary ∧ p.isMainPaper = none := by
  unfold processSingleReference at h
  repeat' split at h
  all_goals cases h
  all_goals exact ⟨rfl, rfl, rfl⟩

/-- Function `processPaperData` assigns the fixed subject score 10, or the sentinel
score 5 on failure. -/
theorem processPaperData_score (d : SummaryPayload) :
    (processPaperData d).relevanceScore = 10 ∨ processPaperData d = errorLoadingPaper := by
  unfold processPaperData
  repeat' split
  all_goals simp [errorLoadingPaper]

/-- Everything in `directResults` has relevance score 10 (subject paper),
5 (sentinel subject paper) or 8 (expanded reference). -/
theorem directResults_score (env : PubMedEnv) (cfg : SearchConfig) (text : String) (p : Paper)
    (hp : p ∈ directResults env cfg text) :
    p.relevanceScore = 10 ∨ p.relevanceScore = 5 ∨ p.relevanceScore = 8 := by
  unfold directResults at hp
  split at hp
  · cases hp
  · split at hp
    · cases hp
    · rcases List.mem_cons.mp hp with hp | hp
      · subst hp
        rcases processPaperData_score (by assumption) with h | h
        · left; exact h
        · right; left; rw [h]; rfl
      · split at hp
        · cases hp
        · rw [findReferencedPapers_eq_filterMap] at hp
          obtain ⟨id, _, hid⟩ := List.mem_filterMap.mp hp
          right; right
          exact (processSingleReference_fields _ id p hid).1

/-- A keyword-search paper's score and summary come from
`analyzePaperRelevance`: a scorer reply passed through, or the fallback. -/
theorem buildSearchPaper_score (env : PubMedEnv) (disc : String)
    (articles : List XmlArticle) (e : SummaryEntryRec) :
    scoreFromScorer env.scorer disc (buildSearchPaper (fun c => env.scorer c disc) articles e) := by
  unfold buildSearchPaper scoreFromScorer analyzePaperRelevance
  set content := "Title: " ++ jsOrString e.title ("No title available") ++ "\nAbstract: " ++
    jsAbstract ((articles.find? (fun a => a.pmid == some e.uid)).bind XmlArticle.abstractText) with hc
  cases hs : env.scorer content disc with
  | none => left; simp [hs, fallbackAnalysis]
  | some r => right; exact ⟨content, r, hs, by simp [hs], by simp [hs]⟩

/-- Every paper produced by the batch loop satisfies the scorer
characterisation. -/
theorem searchBatches_score (env : PubMedEnv) (disc : String) :
    ∀ (bs : List (List String)) (papers : List Paper), searchBatches env disc bs = some papers →
      ∀ p ∈ papers, scoreFromScorer env.scorer disc p := by
  intro bs
  induction bs with
  | nil =>
    intro papers h p hp
    cases h
    cases hp
  | cons b rest ih =>
    intro papers h p hp
    unfold searchBatches at h
    split at h
    · cases h
    · rename_i payload hpay
      cases hrest : searchBatches env disc rest with
      | none => rw [hrest] at h; cases h
      | some tl =>
        rw [hrest] at h
        simp only [Option.map_some] at h
        cases h
        rcases List.mem_append.mp hp with hp | hp
        · obtain ⟨e, _, he⟩ := List.mem_map.mp hp
          subst he
          exact buildSearchPaper_score env disc payload.articles e.2
        · exact ih tl hrest p hp

/-- Every paper returned by `searchPubMed` satisfies the scorer
characterisation. -/
theorem searchPubMed_score (env : PubMedEnv) (disc term : String) (m : Nat) (p : Paper)
    (hp : p ∈ searchPubMed env disc term m) : scoreFromScorer env.scorer disc p := by
  unfold searchPubMed at hp
  split at hp
  · cases hp
  · split at hp
    · cases hp
    · cases hb : searchBatches env disc (chunkList 5 _) with
      | none => rw [hb] at hp; cases hp
      | some papers =>
        rw [hb] at hp
        exact searchBatches_score env disc _ papers hb p hp

/-- Every accumulated keyword result satisfies the scorer
characterisation. -/
theorem allKeywordResults_score (env : PubMedEnv) (cfg : SearchConfig) (text : String) (p : Paper)
    (hp : p ∈ allKeywordResults env cfg text) : scoreFromScorer env.scorer text p := by
  unfold allKeywordResults at hp
  obtain ⟨l, hl, hpl⟩ := List.mem_flatten.mp hp
  obtain ⟨t, _, ht⟩ := List.mem_map.mp hl
  subst ht
  exact searchPubMed_score env text t _ p hpl

/-- The merge loop never changes how many papers carry an id that is
already represented in the accumulated list. -/
theorem mergeNewPapers_countP (i : String) :
    ∀ (inc acc : List Paper), acc.any (fun p => p.id == i) = true →
      (mergeNewPapers acc inc).countP (fun p => p.id == i) = acc.countP (fun p => p.id == i) := by
  intro inc
  induction inc with
  | nil => intro acc _; rfl
  | cons q qs ih =>
    intro acc h
    unfold mergeNewPapers
    by_cases hq : acc.any (fun p => p.id == q.id)
    · rw [if_pos hq]
      exact ih acc h
    · rw [if_neg hq]
      have hqi : (q.id == i) = false := by
        by_cases hqi : q.id = i
        · exfalso
          apply hq
          rw [hqi]
          exact h
        · exact beq_eq_false_iff_ne.mpr hqi
      have hany : (acc ++ [q]).any (fun p => p.id == i) = true := by
        rw [List.any_append]
        simp [h]
      rw [ih (acc ++ [q]) hany, List.countP_append]
      simp [List.countP_cons, hqi]

/-- The merge loop only appends: the result is the accumulated list plus a
suffix of papers whose ids were absent from it. -/
theorem mergeNewPapers_extends :
    ∀ (inc acc : List Paper), ∃ ext, mergeNewPapers acc inc = acc ++ ext ∧
      ∀ q ∈ ext, ∀ p ∈ acc, ¬ p.id = q.id := by
  intro inc
  induction inc with
  | nil =>
    intro acc
    exact ⟨[], by simp [mergeNewPapers], by simp⟩
  | cons q qs ih =>
    intro acc
    unfold mergeNewPapers
    by_cases hq : acc.any (fun p => p.id == q.id)
    · rw [if_pos hq]
      exact ih acc
    · rw [if_neg hq]
      obtain ⟨ext, he, hdisj⟩ := ih (acc ++ [q])
      refine ⟨q :: ext, ?_, ?_⟩
      · rw [he]
        simp
      · intro x hx p hpacc
        rcases List.mem_cons.mp hx with hx | hx
        · subst hx
          intro hid
          apply hq
          exact List.any_eq_true.mpr ⟨p, hpacc, beq_iff_eq.mpr hid⟩
        · exact hdisj x hx p (List.mem_append_left _ hpacc)

/-- Helper for C9: the merge keeps a uniquely represented id uniquely
represented. -/
theorem mergeNewPapers_countP_one (papers inc : List Paper) (i : String)
    (h : papers.countP (fun p => p.id == i) = 1) :
    (mergeNewPapers papers inc).countP (fun p => p.id == i) = 1 := by
  have hpos : 0 < papers.countP (fun p => p.id == i) := by omega
  obtain ⟨a, ha, hai⟩ := List.countP_pos_iff.mp hpos
  have hany : papers.any (fun p => p.id == i) = true := List.any_eq_true.mpr ⟨a, ha, hai⟩
  rw [mergeNewPapers_countP i inc papers hany, h]

/-- Helper for C9: `handlePaperSelect` returns the untouched list or one
of the two merges, each started from the captured `papers` value. -/
theorem handlePaperSelect_cases (cfg : SearchConfig) (refFetch : String → Option SummaryPayload)
    (papers : List Paper) (selected : Paper) (citing : List Paper) :
    handlePaperSelect cfg refFetch papers selected citing = papers ∨
    handlePaperSelect cfg refFetch papers selected citing = mergeNewPapers papers citing ∨
    handlePaperSelect cfg refFetch papers selected citing =
      mergeNewPapers papers (findReferencedPapers refFetch (selected.references.getD []) 100) := by
  unfold handlePaperSelect
  split
  · dsimp only
    split
    · right; right; rfl
    · split
      · right; left; rfl
      · left; rfl
  · left; rfl

/-- C8: during reference expansion, a failure on any single identifier
skips only that identifier: the loop is a `filterMap` over the truncated
identifier list, so the remaining identifiers are processed and every
successfully fetched reference paper is returned; the batch never
aborts. -/
theorem C8_reference_failure_skips_only_that_id (refFetch : String → Option SummaryPayload)
    (ids : List String) (m : Nat) :
    findReferencedPapers refFetch ids m =
      (ids.take m).filterMap (processSingleReference refFetch) ∧
    ∀ id ∈ ids.take m, ∀ p, processSingleReference refFetch id = some p →
      p ∈ findReferencedPapers refFetch ids m := by
  refine ⟨findReferencedPapers_eq_filterMap refFetch ids m, ?_⟩
  intro id hid p hp
  rw [findReferencedPapers_eq_filterMap]
  exact List.mem_filterMap.mpr ⟨id, hid, hp⟩

/-- Witness for C8: with the first identifier failing, the second is
still fetched and returned. -/
theorem C8_reference_failure_witness :
    refPaper99 ∈ findReferencedPapers refFetchDemo ["badid", "99999999"] 16 :=
  (C8_reference_failure_skips_only_that_id refFetchDemo ["badid", "99999999"] 16).2
    "99999999" (by decide) refPaper99 (by decide)

/-- C9: `handlePaperSelect` merges lazily fetched citing and referenced
papers by appending only papers whose id is not already present in the
list being extended, and an id represented exactly once beforehand is
represented exactly once afterwards. -/
theorem C9_select_merge_no_duplicates (cfg : SearchConfig)
    (refFetch : String → Option SummaryPayload) (papers : List Paper) (selected : Paper)
    (citing : List Paper) :
    (∃ ext, handlePaperSelect cfg refFetch papers selected citing = papers ++ ext ∧
        ∀ q ∈ ext, ∀ p ∈ papers, ¬ p.id = q.id) ∧
    ∀ i, papers.countP (fun p => p.id == i) = 1 →
      (handlePaperSelect cfg refFetch papers selected citing).countP (fun p => p.id == i) = 1 := by
  rcases handlePaperSelect_cases cfg refFetch papers selected citing with h | h | h
  · rw [h]
    exact ⟨⟨[], by simp, by simp⟩, fun i hi => hi⟩
  · rw [h]
    exact ⟨mergeNewPapers_extends citing papers,
      fun i hi => mergeNewPapers_countP_one papers citing i hi⟩
  · rw [h]
    exact ⟨mergeNewPapers_extends _ papers,
      fun i hi => mergeNewPapers_countP_one papers _ i hi⟩

/-- Witness for C9: a list holding `refPaper99` once still holds it once
after selecting a paper that triggers the citation merge, and the merge
only appended the genuinely new paper. -/
theorem C9_select_merge_witness :
    ([refPaper99].countP (fun p => p.id == "99999999") = 1) ∧
    (handlePaperSelect defaultSearchConfig refFetchDemo [refPaper99] keywordPaper111
        [refPaper99, keywordPaper111]).countP (fun p => p.id == "99999999") = 1 :=
  ⟨by decide,
    (C9_select_merge_no_duplicates defaultSearchConfig refFetchDemo [refPaper99]
      keywordPaper111 [refPaper99, keywordPaper111]).2 ("99999999") (by decide)⟩

/-- Counterexample for C6: a completion reply with thirteen nonempty
lines produces thirteen search terms, outside the claimed 1..12 range
(an all-whitespace reply similarly produces zero terms). -/
theorem C6_counterexample_thirteen_terms :
    (generateSearchTerms ("x") (some thirteenLineReply)).length = 13 ∧
    ¬(1 ≤ (generateSearchTerms ("x") (some thirteenLineReply)).length ∧
        (generateSearchTerms ("x") (some thirteenLineReply)).length ≤ 12) := by
  constructor
  · decide
  · decide

/-- C6 (amended): the term generator returns the nonempty lines of the
trimmed completion reply — every returned term is nonempty, but the count
is not bounded by 12 and may be 0 — and on any failure it returns exactly
the one-element list holding the raw discussion text. -/
theorem C6_terms_shape (text r : String) :
    generateSearchTerms text none = [text] ∧
    ∀ t ∈ generateSearchTerms text (some r), t.length > 0 := by
  refine ⟨rfl, ?_⟩
  intro t ht
  unfold generateSearchTerms at ht
  simpa using (List.mem_filter.mp ht).2

/-- Witness for C6: the failure fallback on `"x"`, and the term `"a"`
drawn from the reply `"a\nb"` is nonempty. -/
theorem C6_terms_shape_witness :
    generateSearchTerms ("x") none = ["x"] ∧ "a".length > 0 :=
  ⟨(C6_terms_shape ("x") "a\nb").1, (C6_terms_shape ("x") "a\nb").2 ("a") (by decide)⟩

/-- C5: the relevance scorer is total — on every request or parse failure
it returns the fixed fallback score 5 with the fixed three-line fallback
summary — and a pipeline run whose scorer always fails still completes,
with every keyword-scored paper carrying exactly that fallback. -/
theorem C5_scorer_never_raises (env : PubMedEnv) (cfg : SearchConfig) (text : String)
    (hfail : ∀ c d, env.scorer c d = none) :
    analyzePaperRelevance none = fallbackAnalysis ∧
    ∀ p ∈ allKeywordResults env cfg text,
      p.relevanceScore = 5 ∧ p.summary = fallbackAnalysis.summary := by
  refine ⟨rfl, ?_⟩
  intro p hp
  rcases allKeywordResults_score env cfg text p hp with h | ⟨c, r, hcr, _⟩
  · exact h
  · rw [hfail c text] at hcr
    cases hcr

/-- Witness for C5: under an always-failing scorer the keyword paper for
id `111` is produced with score 5 and the fallback summary. -/
theorem C5_scorer_never_raises_witness :
    keywordPaper111Fallback.relevanceScore = 5 ∧
    keywordPaper111Fallback.summary = fallbackAnalysis.summary :=
  (C5_scorer_never_raises envScorerFail defaultSearchConfig ("x") (fun _ _ => rfl)).2
    keywordPaper111Fallback (by decide)

/-- Counterexample for C3: a model reply with `relevanceScore: 11` is
passed through unclamped, so the pipeline's output contains a paper whose
relevance score is outside 1..10. -/
theorem C3_counterexample_score_eleven :
    ∃ p ∈ handleDiscussionSubmit envScore11 defaultSearchConfig ("x"),
      ¬(1 ≤ p.relevanceScore ∧ p.relevanceScore ≤ 10) := by
  decide

/-- C3 (amended): provided every scorer reply that parses carries a score
in 1..10, every paper in the pipeline's output has its relevance score in
1..10 — the fixed scores (10 for the subject paper, 8 for references, 5
for both sentinel and fallback) are always in range, but the scorer
itself performs no clamping. -/
theorem C3_scores_in_range (env : PubMedEnv) (cfg : SearchConfig) (text : String)
    (hs : ∀ c d r, env.scorer c d = some r → 1 ≤ r.relevanceScore ∧ r.relevanceScore ≤ 10) :
    ∀ p ∈ handleDiscussionSubmit env cfg text,
      1 ≤ p.relevanceScore ∧ p.relevanceScore ≤ 10 := by
  intro p hp
  rw [handleDiscussionSubmit, mem_lodashOrderBy] at hp
  rcases List.mem_append.mp hp with hp | hp
  · rcases directResults_score env cfg text p hp with h | h | h <;> omega
  · unfold uniqueTopResults at hp
    have hmem := (selectUniqueTop_mem _ _ 0 _ p hp).1
    rw [mem_lodashOrderBy] at hmem
    rcases allKeywordResults_score env cfg text p hmem with ⟨h5, _⟩ | ⟨c, r, hcr, hsc, _⟩
    · omega
    · have := hs c text r hcr
      omega

/-- Witness for C3 (amended): under a scorer always replying 7, the
keyword paper for id `111` is in the output with its score in range. -/
theorem C3_scores_in_range_witness :
    1 ≤ keywordPaper111.relevanceScore ∧ keywordPaper111.relevanceScore ≤ 10 :=
  C3_scores_in_range envKeywordDup defaultSearchConfig ("x")
    (fun _ _ r h => by cases Option.some.inj h; decide)
    keywordPaper111 (by decide)

/-- Counterexample for C1: with two search terms both returning PubMed id
`111` (absent from the direct/reference set), the dedup loop — which only
consults the direct/reference pmids — keeps both copies, so the final
list repeats an identifier. -/
theorem C1_counterexample_duplicate_keyword_pmid :
    (handleDiscussionSubmit envKeywordDup defaultSearchConfig ("x")).map Paper.pmid =
      ["111", "111"] ∧
    ¬((handleDiscussionSubmit envKeywordDup defaultSearchConfig ("x")).map Paper.pmid).Nodup := by
  constructor
  · decide
  · decide

/-- C1 (amended): deduplication is enforced between the keyword additions
and the direct/reference set — a reference identifier that also appears
among keyword-search results is kept once, under the reference-set entry,
and never re-added — but two keyword results sharing an identifier can
both survive, so pairwise uniqueness of the whole list is not
guaranteed. -/
theorem C1_keyword_additions_disjoint (env : PubMedEnv) (cfg : SearchConfig) (text : String) :
    ∀ p ∈ uniqueTopResults env cfg text,
      p.pmid ∉ (directResults env cfg text).map Paper.pmid := by
  intro p hp
  have h := (selectUniqueTop_mem _ _ 0 _ p hp).2
  intro hmem
  have hc : ((directResults env cfg text).map Paper.pmid).contains p.pmid = true :=
    List.elem_iff.mpr hmem
  rw [hc] at h
  cases h

/-- Witness for C1 (amended): the keyword paper `111` is among the
additions and its pmid avoids the (empty) direct set. -/
theorem C1_keyword_additions_disjoint_witness :
    keywordPaper111.pmid ∉
      (directResults envKeywordDup defaultSearchConfig ("x")).map Paper.pmid :=
  C1_keyword_additions_disjoint envKeywordDup defaultSearchConfig ("x")
    keywordPaper111 (by decide)

/-- C4: reference expansion requests at most `floor(maxResults * 0.8)`
referenced papers; at most 5 keyword searches run, each requesting
exactly `max(1, ceil(remainingBudget / termCount))` results with
`remainingBudget = max(2, maxResults - currentResultCount)`; at most
`max(2, floor(maxResults * 0.2))` unique keyword papers are added; and
for `maxResults = 20` the bounds are 16 and 4. -/
theorem C4_pipeline_budgets (env : PubMedEnv) (cfg : SearchConfig) (text : String) :
    (pipelineRefRequests env cfg text).length ≤ 4 * cfg.maxResults / 5 ∧
    (keywordTermsUsed env text).length ≤ 5 ∧
    (∀ r ∈ keywordRequests env cfg text,
      r.2 = max 1 (jsCeilDiv (max 2 (cfg.maxResults - (directResults env cfg text).length))
        (keywordTermsUsed env text).length)) ∧
    (uniqueTopResults env cfg text).length ≤ max 2 (cfg.maxResults / 5) ∧
    (cfg.maxResults = 20 →
      (pipelineRefRequests env cfg text).length ≤ 16 ∧
      (uniqueTopResults env cfg text).length ≤ 4) := by
  have h1 : (pipelineRefRequests env cfg text).length ≤ 4 * cfg.maxResults / 5 := by
    unfold pipelineRefRequests
    repeat' split
    all_goals (try simp)
    all_goals (split <;> simp [List.length_take])
  have h4 : (uniqueTopResults env cfg text).length ≤ max 2 (cfg.maxResults / 5) := by
    have := selectUniqueTop_length ((directResults env cfg text).map Paper.pmid)
      (max 2 (cfg.maxResults / 5)) 0
      (lodashOrderBy cmpScoreDesc (allKeywordResults env cfg text)) (by omega)
    simpa [uniqueTopResults] using this
  refine ⟨h1, ?_, ?_, h4, ?_⟩
  · simp [keywordTermsUsed, List.length_take]
  · intro r hr
    obtain ⟨t, _, ht⟩ := List.mem_map.mp hr
    subst ht
    rfl
  · intro h20
    constructor
    · have := h1
      rw [h20] at this
      simpa using this
    · have := h4
      rw [h20] at this
      simpa using this

/-- Witness for C4: under `envKeywordDup` with the default configuration
the first keyword request carries the budget formula's value (10), and
the reference-request bound at `maxResults = 20` is 16. -/
theorem C4_pipeline_budgets_witness :
    ("alpha", 10).2 = max 1 (jsCeilDiv (max 2 (defaultSearchConfig.maxResults -
        (directResults envKeywordDup defaultSearchConfig ("x")).length))
      (keywordTermsUsed envKeywordDup ("x")).length) ∧
    (pipelineRefRequests envKeywordDup defaultSearchConfig ("x")).length ≤ 16 :=
  ⟨(C4_pipeline_budgets envKeywordDup defaultSearchConfig ("x")).2.2.1 ("alpha", 10) (by decide),
    ((C4_pipeline_budgets envKeywordDup defaultSearchConfig ("x")).2.2.2.2 rfl).1⟩

/-- C2 (code bug): lodash `orderBy` with `'desc'` sorts `undefined` keys
before `true`, so the final sort places every paper lacking the
`isMainPaper` field ahead of the subject paper: for the discussion text
`"PMID: 12345678"` with a successful direct fetch and one expanded
reference, the subject paper comes last, not first, contradicting the
code's own comment and the specification. -/
theorem C2_subject_paper_sorted_last :
    (handleDiscussionSubmit envSubjectWithRef defaultSearchConfig ("PMID: 12345678")).map
        (fun p => (p.pmid, p.isMainPaper, p.relevanceScore)) =
      [("99999999", none, 8), ("12345678", some true, 10)] := by
  decide

/-- Counterexample for C7: two transient upstream errors that are not
retried.  A thrown network failure on a `search` request lands in the
`catch` after a single upstream attempt and is answered with the wrapped
500, not with a retried upstream payload; and a failure of the summary
endpoint's second (efetch) sub-request is likewise answered after the two
initial attempts with the wrapped 500, with no retry of that
sub-request. -/
theorem C7_counterexample_unretried_errors :
    pubmedGET ("search") [.netFail] = (.serverError, 1) ∧
    pubmedGET ("summary") [.reply false ("s"), .netFail] = (.serverError, 2) := by
  constructor
  · decide
  · decide

/-- C7 (amended): the proxy never makes more than two upstream requests
per call, and the retry fires exactly when the first reply's JSON body
carries an `error` field — for `search`, `citations` and `references`,
and for the summary endpoint's first sub-request — in which case the
retried reply's payload is returned unchanged; thrown transport failures
and the summary endpoint's second sub-request are never retried. -/
theorem C7_retry_exactly_once (reqType : String) (upstream : List UpstreamOutcome) :
    (pubmedGET reqType upstream).2 ≤ 2 ∧
    ((reqType = "search" ∨ reqType = "citations" ∨ reqType = "references" ∨
        reqType = "summary") →
      ∀ (e : Bool) (p p2 : String) (rest : List UpstreamOutcome),
        upstream = .reply true p :: .reply e p2 :: rest →
        pubmedGET reqType upstream = (.ok p2, 2)) := by
  constructor
  · unfold pubmedGET retryOnce
    repeat' split
    all_goals simp
  · intro h e p p2 rest hup
    subst hup
    rcases h with h | h | h | h
    all_goals subst h
    all_goals rfl

/-- Witness for C7 (amended): an error-payload reply on `search` is
retried once and the retry's payload `"ok"` is returned unchanged. -/
theorem C7_retry_exactly_once_witness :
    pubmedGET ("search") [.reply true ("e1"), .reply false ("ok")] = (.ok ("ok"), 2) :=
  (C7_retry_exactly_once ("search") [.reply true ("e1"), .reply false ("ok")]).2
    (Or.inl rfl) false ("e1") "ok" [] rfl

/-- Helper for C10: when the subject summary data has no usable key,
`processPaperData` returns the sentinel paper. -/
theorem processPaperData_malformed (d : SummaryPayload) (h : subjectDataMalformed d) :
    processPaperData d = errorLoadingPaper := by
  unfold processPaperData
  rcases h with h | h
  · rw [h]
  · cases hres : d.result with
    | none => rfl
    | some entries =>
      have hfind : entries.find? (fun e => e.1 != "uids") = none := by
        apply List.find?_eq_none.mpr
        intro e he
        have := h e (by rw [hres]; exact he)
        simp [this]
      simp [hfind]

/-- C10: `processPaperData` is total — on malformed summary data with no
usable identifier it returns the sentinel record with id and pmid
`"unknown"`, relevance score 5 and the fixed error summary instead of
throwing — and a pipeline run whose subject-paper data fails to parse
still places that sentinel, flagged as the primary subject, in the result
list. -/
theorem C10_sentinel_subject_paper (env : PubMedEnv) (cfg : SearchConfig)
    (text pmid : String) (d : SummaryPayload)
    (hpmid : resolvePMID env text = some pmid)
    (hfetch : env.subjectFetch pmid = some d)
    (hmal : subjectDataMalformed d) :
    processPaperData d = errorLoadingPaper ∧
    errorLoadingPaper.id = "unknown" ∧ errorLoadingPaper.pmid = "unknown" ∧
    errorLoadingPaper.relevanceScore = 5 ∧
    { errorLoadingPaper with isMainPaper := some true } ∈
      handleDiscussionSubmit env cfg text := by
  have herr := processPaperData_malformed d hmal
  refine ⟨herr, rfl, rfl, rfl, ?_⟩
  rw [handleDiscussionSubmit, mem_lodashOrderBy]
  apply List.mem_append_left
  unfold directResults
  simp only [hpmid, hfetch, herr]
  exact List.mem_cons_self _ _

/-- Witness for C10: a subject fetch replying without a `summary.result`
object still yields the flagged sentinel in the pipeline output. -/
theorem C10_sentinel_subject_paper_witness :
    { errorLoadingPaper with isMainPaper := some true } ∈
      handleDiscussionSubmit envMalformedSubject defaultSearchConfig ("PMID: 12345678") :=
  (C10_sentinel_subject_paper envMalformedSubject defaultSearchConfig ("PMID: 12345678")
    "12345678" malformedPayload (by decide) (by decide) (Or.inl rfl)).2.2.2.2
